import Mathlib

/-!
# Verification of the racebuddy training-plan generation pipeline

Shallow embedding of `backend/app/core/training_logic.py` and the parts of
`backend/app/core/schemas.py` it relies on.

Modelling conventions:
* Python `date` values are day ordinals (`date.toordinal()`), modelled as `ℤ`;
  `timedelta(days = n)` is integer addition, `timedelta(weeks = w)` adds `7 * w`.
* Python machine floats are modelled by exact arithmetic (`ℚ`, and `ℝ` where
  `math.sin` appears); `round` (round-half-to-even on ints) is `pyRound`.
  Concrete inputs used in theorems below are far enough from half-integer
  boundaries that the exact value and the float value round identically.
* `HH:MM:SS` target-time strings are validated at construction
  (`TrainingPlanRequest.validate_target_time`), so a request carries the three
  parsed components directly.
* Pydantic coercion: `TrainingSession.distance_km` is `Optional[int]`, so a
  JSON number arriving in `"distans_km"` is an integer after validation; the
  model carries the post-coercion `ℤ`.
-/

namespace RaceBuddy

/-! ## Data model (schemas.py) -/

inductive Gender
  | male
  | female
  | other
deriving DecidableEq

inductive FitnessLevel
  | beginner
  | intermediate
  | advanced
deriving DecidableEq

inductive RaceId
  | lidingo
deriving DecidableEq

/-- `TrainingPlanRequest` (schemas.py lines 25-66).  The target time is stored
as its three validated components. -/
structure TrainingPlanRequest where
  gender : Gender
  height_cm : ℤ
  weight_kg : ℚ
  age : ℤ
  fitness_level : FitnessLevel
  race : RaceId
  target_hours : ℕ
  target_minutes : ℕ
  target_seconds : ℕ
  start_date : ℤ
  race_date : ℤ
  training_days_per_week : ℕ
deriving DecidableEq

/-- The pydantic field constraints and validators of `TrainingPlanRequest`:
ranges on numeric fields, `HH:MM:SS` ranges, race date strictly after start
date, 3-7 training days. -/
def ValidRequest (r : TrainingPlanRequest) : Prop :=
  100 ≤ r.height_cm ∧ r.height_cm ≤ 250 ∧
  30 ≤ r.weight_kg ∧ r.weight_kg ≤ 200 ∧
  12 ≤ r.age ∧ r.age ≤ 100 ∧
  r.target_hours ≤ 23 ∧ r.target_minutes ≤ 59 ∧ r.target_seconds ≤ 59 ∧
  r.start_date < r.race_date ∧
  3 ≤ r.training_days_per_week ∧ r.training_days_per_week ≤ 7

instance (r : TrainingPlanRequest) : Decidable (ValidRequest r) := by
  unfold ValidRequest
  exact inferInstance

/-- `TrainingSession` (schemas.py lines 71-84). -/
structure TrainingSession where
  date : ℤ
  type : String
  description : String
  distance_km : Option ℤ
  duration_minutes : Option ℤ
  pace : Option String
  intensity : Option String
  notes : Option String
deriving DecidableEq

/-- `WeekPlan` (schemas.py lines 89-96).  `total_distance_km` is declared as a
float but every value assigned to it in training_logic.py is an integer. -/
structure WeekPlan where
  week_number : ℤ
  start_date : ℤ
  end_date : ℤ
  focus : String
  total_distance_km : ℤ
  sessions : List TrainingSession
deriving DecidableEq

/-- The plain dict returned by both generators:
`{"weeks": ..., "total_weeks": ..., "total_distance_km": ...}`. -/
structure Plan where
  weeks : List WeekPlan
  total_weeks : ℕ
  total_distance_km : ℤ
deriving DecidableEq

/-! ## Rounding

Python's builtin `round` on an integral-valued or exactly-representable value
rounds half to even.  `pyRound` is that function on exact rationals, and
`pyRoundR` the same on reals (needed where `math.sin` enters the value). -/

def pyRound (q : ℚ) : ℤ :=
  if Int.fract q = 1 / 2 then (if Even ⌊q⌋ then ⌊q⌋ else ⌊q⌋ + 1) else round q

noncomputable def pyRoundR (x : ℝ) : ℤ :=
  if Int.fract x = 1 / 2 then (if Even ⌊x⌋ then ⌊x⌋ else ⌊x⌋ + 1) else round x

/-! ## Exceptions surfaced by the pipeline -/

inductive GenError
  | unsupportedConfiguration
  | keyError
  | validationError
  | serviceError
  | agentFailed (msg : String)
  | jsonDecodeError
deriving DecidableEq

/-! ## TrainingPlanGenerator (training_logic.py lines 12-323) -/

inductive SessionType
  | easy_run
  | tempo_run
  | interval_training
  | long_run
  | hill_training
  | recovery_run
deriving DecidableEq

/-- `session_types[t]["name"]` (lines 17-48). -/
def sessionName : SessionType → String
  | .easy_run => "Lugnt löppass"
  | .tempo_run => "Tempopass"
  | .interval_training => "Intervallträning"
  | .long_run => "Långpass"
  | .hill_training => "Backträning"
  | .recovery_run => "Återhämtningspass"

/-- `session_types[t]["description"]` (lines 17-48). -/
def sessionBaseDescription : SessionType → String
  | .easy_run => "Lätt och behagligt tempo, bra för återhämtning"
  | .tempo_run => "Medelhårt tempo, ungefär som tävlingstempo"
  | .interval_training => "Hög intensitet med vila mellan intervaller"
  | .long_run => "Långt pass för att bygga uthållighet"
  | .hill_training => "Träning i backar för att bygga styrka"
  | .recovery_run => "Mycket lätt jogging för aktiv återhämtning"

/-- `session_types[t]["intensity"]` (lines 17-48). -/
def sessionIntensity : SessionType → String
  | .easy_run => "low"
  | .tempo_run => "medium"
  | .interval_training => "high"
  | .long_run => "low-medium"
  | .hill_training => "medium-high"
  | .recovery_run => "very_low"

/-- `_calculate_training_weeks` (lines 84-88): `max(4, min(20, delta.days // 7))`.
Python `//` is floor division, hence `Int.fdiv`. -/
def calculateTrainingWeeks (start_date race_date : ℤ) : ℤ :=
  max 4 (min 20 ((race_date - start_date).fdiv 7))

/-- `_get_weekly_structure` (lines 90-116).  A key absent from the nested dict
is a `KeyError`; the lookup result is therefore an `Option`. -/
def baseStructures (fitness_level : FitnessLevel) (days_per_week : ℕ) :
    Option (List SessionType) :=
  match fitness_level with
  | .beginner =>
    if days_per_week = 3 then some [.easy_run, .easy_run, .long_run]
    else if days_per_week = 4 then some [.easy_run, .tempo_run, .easy_run, .long_run]
    else if days_per_week = 5 then
      some [.easy_run, .tempo_run, .easy_run, .recovery_run, .long_run]
    else if days_per_week = 6 then
      some [.easy_run, .tempo_run, .easy_run, .hill_training, .recovery_run, .long_run]
    else if days_per_week = 7 then
      some [.easy_run, .tempo_run, .easy_run, .interval_training, .easy_run,
        .recovery_run, .long_run]
    else none
  | .intermediate =>
    if days_per_week = 3 then some [.tempo_run, .interval_training, .long_run]
    else if days_per_week = 4 then
      some [.easy_run, .tempo_run, .interval_training, .long_run]
    else if days_per_week = 5 then
      some [.easy_run, .tempo_run, .interval_training, .hill_training, .long_run]
    else if days_per_week = 6 then
      some [.easy_run, .tempo_run, .interval_training, .hill_training, .recovery_run,
        .long_run]
    else if days_per_week = 7 then
      some [.easy_run, .tempo_run, .easy_run, .interval_training, .hill_training,
        .recovery_run, .long_run]
    else none
  | .advanced =>
    if days_per_week = 4 then
      some [.tempo_run, .interval_training, .hill_training, .long_run]
    else if days_per_week = 5 then
      some [.easy_run, .tempo_run, .interval_training, .hill_training, .long_run]
    else if days_per_week = 6 then
      some [.easy_run, .tempo_run, .interval_training, .hill_training, .tempo_run,
        .long_run]
    else if days_per_week = 7 then
      some [.easy_run, .tempo_run, .easy_run, .interval_training, .hill_training,
        .tempo_run, .long_run]
    else none

/-- `_determine_week_focus` (lines 161-184); returns the `name` of the focus
dict.  `week_number / total_weeks` is Python float division, modelled exactly
in `ℚ`. -/
def determineWeekFocusName (week_number total_weeks : ℕ) : String :=
  let progress : ℚ := (week_number : ℚ) / (total_weeks : ℚ)
  if progress ≤ 0.3 then "Basbyggnad"
  else if progress ≤ 0.7 then "Styrka och fart"
  else if progress ≤ 0.9 then "Tävlingsförberedelse"
  else "Avtrappning"

/-- `_calculate_base_distance` (lines 186-207).  `target_minutes` is
`int(parts[0]) * 60 + int(parts[1])` of the validated `HH:MM:SS` string. -/
def calculateBaseDistance (fitness_level : FitnessLevel) (hh mm : ℕ) : ℚ :=
  let target_minutes := hh * 60 + mm
  if target_minutes < 150 then
    match fitness_level with
    | .beginner => 35
    | .intermediate => 50
    | .advanced => 70
  else if target_minutes < 210 then
    match fitness_level with
    | .beginner => 30
    | .intermediate => 45
    | .advanced => 60
  else
    match fitness_level with
    | .beginner => 25
    | .intermediate => 40
    | .advanced => 55

/-- The weekly volume multiplier of `_calculate_week_distance` (lines 209-223),
as a function of `progress = week_number / total_weeks`. -/
noncomputable def weekMultiplier (progress : ℝ) : ℝ :=
  if progress ≤ 0.3 then 0.7 + progress * 1.0
  else if progress ≤ 0.7 then 1.0 + 0.3 * Real.sin ((progress - 0.3) * Real.pi / 0.4)
  else if progress ≤ 0.9 then 1.0
  else 0.6

/-- `_calculate_week_distance` (lines 209-225): `int(round(base * multiplier))`. -/
noncomputable def calculateWeekDistance (week_number total_weeks : ℕ)
    (base_distance : ℚ) : ℤ :=
  pyRoundR ((base_distance : ℝ) * weekMultiplier ((week_number : ℝ) / (total_weeks : ℝ)))

/-- The weekday-preference cycle of `_get_training_days` (line 230). -/
def preferredDays : List ℤ := [0, 2, 4, 5, 1, 3, 6]

/-- `_get_training_days` (lines 227-237): offsets taken cyclically from
`preferredDays`, then `sorted(...)` (ascending, stable, here realised by
insertion sort). -/
def getTrainingDays (week_start : ℤ) (num_sessions : ℕ) : List ℤ :=
  List.insertionSort (· ≤ ·)
    ((List.range num_sessions).map (fun i => week_start + preferredDays.getD (i % 7) 0))

/-- The per-type fraction of the weekly volume (lines 273-280); `.get` with
default `0.15` never falls through because every `SessionType` is a key. -/
def sessionDistribution : SessionType → ℚ
  | .easy_run => 0.15
  | .recovery_run => 0.10
  | .tempo_run => 0.20
  | .interval_training => 0.15
  | .hill_training => 0.15
  | .long_run => 0.35

/-- `_calculate_session_distance` (lines 268-291). -/
def calculateSessionDistance (session_type : SessionType)
    (total_week_distance : ℤ) : ℤ :=
  let base_distance : ℚ := (total_week_distance : ℚ) * sessionDistribution session_type
  match session_type with
  | .long_run => pyRound (max 8 (min 25 base_distance))
  | .recovery_run => pyRound (max 3 (min 8 base_distance))
  | _ => pyRound (max 4 (min 15 base_distance))

/-- `_calculate_pace` (lines 293-306). -/
def calculatePace : SessionType → String
  | .easy_run => "6:00"
  | .recovery_run => "6:30"
  | .tempo_run => "5:20"
  | .interval_training => "4:50"
  | .hill_training => "5:40"
  | .long_run => "5:50"

/-- `_generate_session_description` (lines 308-323); f-string interpolation of
the integer distance. -/
def generateSessionDescription (session_type : SessionType) (distance : ℤ) : String :=
  match session_type with
  | .easy_run => "Löp " ++ toString distance ++ " km i lugnt tempo. Fokusera på teknik och andning."
  | .recovery_run => "Mycket lätt jogging " ++ toString distance ++ " km. Hjälper kroppen att återhämta sig."
  | .tempo_run => "Löp " ++ toString distance ++ " km i medelhårt tempo, ungefär som din måltid i loppet."
  | .interval_training => "Intervallträning totalt " ++ toString distance ++ " km. Växla mellan hög intensitet och vila."
  | .hill_training => "Backträning " ++ toString distance ++ " km. Sök upp backar och träna löpkraft."
  | .long_run => "Långpass " ++ toString distance ++ " km. Bygg uthållighet med stadigt tempo."

/-- `_create_training_session` (lines 239-266).  The deterministic path always
produces a non-null distance and pace; the clamps keep the distance positive,
so the pydantic `ge=0` check cannot fire here. -/
def createTrainingSession (d : ℤ) (session_type : SessionType)
    (total_week_distance : ℤ) : TrainingSession :=
  let distance := calculateSessionDistance session_type total_week_distance
  { date := d
    type := sessionName session_type
    description := generateSessionDescription session_type distance
    distance_km := some distance
    duration_minutes := none
    pace := some (calculatePace session_type)
    intensity := some (sessionIntensity session_type)
    notes := none }

/-- `_generate_week` (lines 118-159). -/
noncomputable def generateWeek (req : TrainingPlanRequest)
    (week_number total_weeks : ℕ) (weekly_structure : List SessionType) : WeekPlan :=
  let week_start := req.start_date + 7 * ((week_number : ℤ) - 1)
  let week_end := week_start + 6
  let base_distance :=
    calculateBaseDistance req.fitness_level req.target_hours req.target_minutes
  let week_distance := calculateWeekDistance week_number total_weeks base_distance
  let session_dates := getTrainingDays week_start weekly_structure.length
  let sessions := weekly_structure.enum.map
    (fun p => createTrainingSession (session_dates.getD p.1 0) p.2 week_distance)
  { week_number := (week_number : ℤ)
    start_date := week_start
    end_date := week_end
    focus := determineWeekFocusName week_number total_weeks
    total_distance_km := week_distance
    sessions := sessions }

/-- The week loop of `generate_plan` (lines 64-82): appends each generated week
and accumulates `total_distance`. -/
noncomputable def generatePlanFromStructure (req : TrainingPlanRequest)
    (weekly_structure : List SessionType) : Plan :=
  let training_weeks := (calculateTrainingWeeks req.start_date req.race_date).toNat
  let r := (List.range' 1 training_weeks).foldl
    (fun acc week_num =>
      let wp := generateWeek req week_num training_weeks weekly_structure
      (acc.1 ++ [wp], acc.2 + wp.total_distance_km))
    (([] : List WeekPlan), (0 : ℤ))
  { weeks := r.1
    total_weeks := training_weeks
    total_distance_km := pyRound ((r.2 : ℚ)) }

/-- `TrainingPlanGenerator.generate_plan` (lines 50-82); raises `KeyError` iff
`(fitness_level, training_days_per_week)` is absent from `base_structures`. -/
noncomputable def generatePlan (req : TrainingPlanRequest) : Except GenError Plan :=
  match baseStructures req.fitness_level req.training_days_per_week with
  | none => .error .unsupportedConfiguration
  | some weekly_structure => .ok (generatePlanFromStructure req weekly_structure)

/-! ## AIEnhancedTrainingPlanGenerator (training_logic.py lines 327-605)

The external collaborators are abstracted at the boundary the code observes:
* retrieval (`_get_race_context`, lines 365-395) either yields result lists or
  raises inside its own `try`, in which case the generic substitute string is
  returned — either way only a context string flows into the prompt;
* the generation service (`race_buddy_agents.chat`, line 476) either raises, or
  reports `success = False`, or returns a reply string.  `json.loads` applied
  to the first `\x7b...\x7d` block of the reply is abstracted as an
  `Option AIPlanData` oracle (`none` = malformed JSON raising
  `json.JSONDecodeError`), while the presence of such a block
  (`re.search` of the brace pattern with `re.DOTALL`) is computed faithfully
  by `hasJsonBlock`.
-/

/-- A session entry of the decoded JSON plan.  `distans_km` distinguishes a
missing key (`.none`, so `.get` yields the default `5.0`, coerced to `5`), an
explicit JSON `null` (`.some .none`), and a number (post-coercion integer). -/
structure SessionData where
  pass : Option String
  fokus : Option String
  distans_km : Option (Option ℤ)
  typ : Option String
deriving DecidableEq

/-- A week entry of the decoded JSON plan; `vecka` and `traningspass` are read
with `[]` (→ `KeyError` when absent), `fokus` with `.get`. -/
structure WeekData where
  vecka : Option ℤ
  fokus : Option String
  traningspass : Option (List SessionData)
deriving DecidableEq

/-- The dict handed to `_structure_plan_data`: either it has a `"veckor"` key
(`veckor = some ...`) or not (e.g. the `{"ai_response": content}` wrapper,
`veckor = none`). -/
structure AIPlanData where
  veckor : Option (List WeekData)
deriving DecidableEq

/-- `AIEnhancedTrainingPlanGenerator._calculate_training_weeks`
(lines 601-605), a verbatim copy of the deterministic generator's helper. -/
def aiCalculateTrainingWeeks (start_date race_date : ℤ) : ℤ :=
  max 4 (min 20 ((race_date - start_date).fdiv 7))

/-- `AIEnhancedTrainingPlanGenerator._get_training_days` (lines 589-599), a
verbatim copy of the deterministic generator's helper. -/
def aiGetTrainingDays (week_start : ℤ) (num_sessions : ℕ) : List ℤ :=
  List.insertionSort (· ≤ ·)
    ((List.range num_sessions).map (fun i => week_start + preferredDays.getD (i % 7) 0))

/-- The training-week count interpolated into the AI prompt by
`_create_training_plan_prompt` (lines 397-414).  The surrounding prompt prose
carries no further computation and is not modelled. -/
def promptTrainingWeeks (req : TrainingPlanRequest) : ℤ :=
  aiCalculateTrainingWeeks req.start_date req.race_date

/-- Outcome of the knowledge-retrieval calls inside `_get_race_context`. -/
inductive RetrievalOutcome
  | raises
  | results (race_results training_results : List String)

/-- `_get_race_context` (lines 365-395): combines retrieved passages, or
returns the hard-coded generic substitute when the retrieval calls raise. -/
def getRaceContext (race_name : String) : RetrievalOutcome → String
  | .raises =>
    "Generell information om " ++ race_name ++ ": 30km terränglopp med cirka 400 höjdmeter."
  | .results race_results training_results =>
    let parts₁ : List String :=
      if race_results.isEmpty then []
      else "LOPPINFORMATION:" :: race_results.map (fun c => c.take 500)
    let parts₂ : List String :=
      if training_results.isEmpty then []
      else "\nTRÄNINGSINFORMATION:" :: training_results.map (fun c => c.take 500)
    String.intercalate "\n\n" (parts₁ ++ parts₂)

/-- Outcome of the single `race_buddy_agents.chat(prompt)` call. -/
inductive ChatOutcome
  | raises
  | failure (err : String)
  | success (reply : String) (parsed : Option AIPlanData)

/-- Whether `re.search(r'\x7b.*\x7d', content, re.DOTALL)` finds a match: some
`\x7b` with some `\x7d` strictly after it. -/
def hasJsonBlockAux : List Char → Bool
  | [] => false
  | c :: rest => if c = '{' then rest.contains '}' else hasJsonBlockAux rest

def hasJsonBlock (content : String) : Bool :=
  hasJsonBlockAux content.toList

/-- `_generate_ai_training_plan` (lines 472-500): re-raises service errors and
JSON decode errors; wraps a reply without a brace block as
`{"ai_response": content}`, i.e. a dict without `"veckor"`. -/
def generateAITrainingPlan (c : ChatOutcome) : Except GenError AIPlanData :=
  match c with
  | .raises => .error .serviceError
  | .failure err => .error (.agentFailed err)
  | .success reply parsed =>
    if hasJsonBlock reply then
      match parsed with
      | some d => .ok d
      | none => .error .jsonDecodeError
    else
      .ok { veckor := none }

/-! ### Pace extraction (`_extract_pace`, lines 560-575)

`re.search(r'@\s*(\d+:\d+)/km', s)` and `re.search(r'(\d+:\d+)-(\d+:\d+)/km', s)`
are realised as left-to-right scans.  In both patterns every repeated class
(`\s`, `\d`) is disjoint from the character that must follow it, so the greedy
backtracking semantics collapse to a deterministic maximal-munch scan.
Character classes are ASCII here (the digit/whitespace characters the code can
meet in its own prompts and replies). -/

/-- Try `@\s*(\d+:\d+)/km` anchored at the head of the list; returns the
captured group. -/
def matchPaceAt (cs : List Char) : Option String :=
  match cs with
  | '@' :: rest =>
    let rest₁ := rest.dropWhile Char.isWhitespace
    let d₁ := rest₁.takeWhile Char.isDigit
    let rest₂ := rest₁.dropWhile Char.isDigit
    if d₁.isEmpty then none
    else
      match rest₂ with
      | ':' :: rest₃ =>
        let d₂ := rest₃.takeWhile Char.isDigit
        let rest₄ := rest₃.dropWhile Char.isDigit
        if d₂.isEmpty then none
        else
          match rest₄ with
          | '/' :: 'k' :: 'm' :: _ => some (String.mk (d₁ ++ ':' :: d₂))
          | _ => none
      | _ => none
  | _ => none

/-- Leftmost match of `@\s*(\d+:\d+)/km`. -/
def searchPace : List Char → Option String
  | [] => none
  | c :: rest =>
    match matchPaceAt (c :: rest) with
    | some g => some g
    | none => searchPace rest

/-- Try `(\d+:\d+)-(\d+:\d+)/km` anchored at the head of the list; returns the
two captured groups. -/
def matchPaceRangeAt (cs : List Char) : Option (String × String) :=
  let d₁ := cs.takeWhile Char.isDigit
  let rest₁ := cs.dropWhile Char.isDigit
  if d₁.isEmpty then none
  else
    match rest₁ with
    | ':' :: rest₂ =>
      let d₂ := rest₂.takeWhile Char.isDigit
      let rest₃ := rest₂.dropWhile Char.isDigit
      if d₂.isEmpty then none
      else
        match rest₃ with
        | '-' :: rest₄ =>
          let d₃ := rest₄.takeWhile Char.isDigit
          let rest₅ := rest₄.dropWhile Char.isDigit
          if d₃.isEmpty then none
          else
            match rest₅ with
            | ':' :: rest₆ =>
              let d₄ := rest₆.takeWhile Char.isDigit
              let rest₇ := rest₆.dropWhile Char.isDigit
              if d₄.isEmpty then none
              else
                match rest₇ with
                | '/' :: 'k' :: 'm' :: _ =>
                  some (String.mk (d₁ ++ ':' :: d₂), String.mk (d₃ ++ ':' :: d₄))
                | _ => none
            | _ => none
        | _ => none
    | _ => none

/-- Leftmost match of `(\d+:\d+)-(\d+:\d+)/km`. -/
def searchPaceRange : List Char → Option (String × String)
  | [] => none
  | c :: rest =>
    match matchPaceRangeAt (c :: rest) with
    | some g => some g
    | none => searchPaceRange rest

/-- `_extract_pace` (lines 560-575): the `@`-pattern first, then the range
pattern (joined as `g1-g2`), otherwise `None`. -/
def extractPace (pass_description : String) : Option String :=
  match searchPace pass_description.toList with
  | some g => some g
  | none =>
    match searchPaceRange pass_description.toList with
    | some g => some (g.1 ++ "-" ++ g.2)
    | none => none

/-- `_determine_intensity` (lines 577-587): fixed lookup with default
`"medium"`. -/
def determineIntensity (session_type : String) : String :=
  if session_type = "Grundträning" then "low"
  else if session_type = "Längdpass" then "low-medium"
  else if session_type = "Tempoträning" then "medium"
  else if session_type = "Intervall" then "high"
  else if session_type = "Backträning" then "medium-high"
  else if session_type = "Återhämtning" then "very_low"
  else "medium"

/-- One iteration of the session loop in `_structure_plan_data`
(lines 522-534): builds the `TrainingSession`, re-raising the pydantic
`ge=0` violation on a negative distance. -/
def structureSession (training_days : List ℤ) (i : ℕ) (sd : SessionData) :
    Except GenError TrainingSession :=
  let dist : Option ℤ :=
    match sd.distans_km with
    | none => some 5
    | some none => none
    | some (some z) => some z
  match dist with
  | some z =>
    if z < 0 then .error .validationError
    else .ok
      { date := training_days.getD i 0
        type := sd.typ.getD "Träning"
        description := sd.pass.getD "Träningspass"
        distance_km := some z
        duration_minutes := none
        pace := extractPace (sd.pass.getD "")
        intensity := some (determineIntensity (sd.typ.getD ""))
        notes := some (sd.fokus.getD "") }
  | none => .ok
      { date := training_days.getD i 0
        type := sd.typ.getD "Träning"
        description := sd.pass.getD "Träningspass"
        distance_km := none
        duration_minutes := none
        pace := extractPace (sd.pass.getD "")
        intensity := some (determineIntensity (sd.typ.getD ""))
        notes := some (sd.fokus.getD "") }

/-- The session loop of `_structure_plan_data` for one week (lines 519-533):
`training_days` is computed from the week start and the session count, each
session is built in order, stopping at the first exception. -/
def structureWeekSessions (req : TrainingPlanRequest) (vecka : ℤ)
    (sds : List SessionData) : Except GenError (List TrainingSession) :=
  sds.enum.mapM
    (fun p =>
      structureSession (aiGetTrainingDays (req.start_date + 7 * (vecka - 1)) sds.length)
        p.1 p.2)

/-- One iteration of the week loop in `_structure_plan_data` (lines 510-547):
`KeyError` on a missing `"vecka"`/`"träningspass"`, pydantic `ge` checks of
`WeekPlan`, `week_distance` accumulated as `session.distance_km or 0` over the
built sessions. -/
def structureWeek (req : TrainingPlanRequest) (wd : WeekData) :
    Except GenError WeekPlan :=
  match wd.vecka with
  | none => .error .keyError
  | some vecka =>
    match wd.traningspass with
    | none => .error .keyError
    | some sds =>
      match structureWeekSessions req vecka sds with
      | .error e => .error e
      | .ok week_sessions =>
        if vecka < 1 then .error .validationError
        else if (week_sessions.map (fun s => s.distance_km.getD 0)).sum < 0 then
          .error .validationError
        else .ok
          { week_number := vecka
            start_date := req.start_date + 7 * (vecka - 1)
            end_date := req.start_date + 7 * (vecka - 1) + 6
            focus := wd.fokus.getD "Träning"
            total_distance_km := (week_sessions.map (fun s => s.distance_km.getD 0)).sum
            sessions := week_sessions }

/-- One pass of the week loop of `_structure_plan_data`: run `structureWeek`,
append the result and add its distance to the running `total_distance`. -/
def structureWeekStep (req : TrainingPlanRequest) (acc : List WeekPlan × ℤ)
    (wd : WeekData) : Except GenError (List WeekPlan × ℤ) :=
  match structureWeek req wd with
  | .error e => .error e
  | .ok wp => .ok (acc.1 ++ [wp], acc.2 + wp.total_distance_km)

/-- The `"veckor"` loop of `_structure_plan_data` (lines 508-547): a dict
without the key contributes no weeks; otherwise the week loop runs, carrying
`(weeks, total_distance)`. -/
def structureLoopRun (req : TrainingPlanRequest) (ai_plan : AIPlanData) :
    Except GenError (List WeekPlan × ℤ) :=
  match ai_plan.veckor with
  | none => .ok ([], 0)
  | some wds => wds.foldlM (structureWeekStep req) (([] : List WeekPlan), (0 : ℤ))

/-- `_structure_plan_data` (lines 502-558): the week loop accumulating
`(weeks, total_distance)`, then the empty-`weeks` fallback to
`TrainingPlanGenerator().generate_plan(request)`. -/
noncomputable def structurePlanData (ai_plan : AIPlanData)
    (req : TrainingPlanRequest) : Except GenError Plan :=
  match structureLoopRun req ai_plan with
  | .error e => .error e
  | .ok (weeks, total_distance) =>
    if weeks.isEmpty then generatePlan req
    else .ok
      { weeks := weeks
        total_weeks := weeks.length
        total_distance_km := pyRound ((total_distance : ℚ)) }

/-- The body of the `try` block of `AIEnhancedTrainingPlanGenerator.generate_plan`
(lines 337-357): generation, then structuring, either of which may raise. -/
noncomputable def attemptAIPlan (req : TrainingPlanRequest) (chat : ChatOutcome) :
    Except GenError Plan :=
  match generateAITrainingPlan chat with
  | .error e => .error e
  | .ok ai_plan => structurePlanData ai_plan req

/-- `AIEnhancedTrainingPlanGenerator.generate_plan` (lines 334-363): the AI
path under `try`, with the unconditional deterministic fallback in `except`.
The retrieval outcome only shapes the prompt string, which the `ChatOutcome`
already abstracts, so it does not appear on the right-hand side. -/
noncomputable def orchestrateGeneratePlan (req : TrainingPlanRequest)
    (_retrieval : RetrievalOutcome) (chat : ChatOutcome) : Except GenError Plan :=
  match attemptAIPlan req chat with
  | .ok plan => .ok plan
  | .error _ => generatePlan req

/-! ## Spec-side formula and concrete inputs used by the theorems below -/

/-- Modelled from the spec: the week-count formula as the spec words it,
`clamp(floor((race_date - start_date).days / 7), 4, 20)`, with a genuine
floor of the rational quotient.  Compared against `calculateTrainingWeeks`. -/
def specWeekCount (start_date race_date : ℤ) : ℤ :=
  max 4 (min 20 ⌊((race_date - start_date : ℚ)) / 7⌋)

/-- The worked example of the spec: `start_date = 2024-01-01` (ordinal 738886),
`race_date = 2024-03-25` (ordinal 738970, 84 days later), intermediate fitness,
4 training days per week, target time `03:00:00`. -/
def exampleRequest : TrainingPlanRequest :=
  { gender := .male
    height_cm := 180
    weight_kg := 75
    age := 30
    fitness_level := .intermediate
    race := .lidingo
    target_hours := 3
    target_minutes := 0
    target_seconds := 0
    start_date := 738886
    race_date := 738970
    training_days_per_week := 4 }

/-- The one valid configuration absent from `base_structures`:
advanced fitness with 3 training days per week. -/
def advanced3Request : TrainingPlanRequest :=
  { gender := .female
    height_cm := 170
    weight_kg := 60
    age := 28
    fitness_level := .advanced
    race := .lidingo
    target_hours := 2
    target_minutes := 20
    target_seconds := 0
    start_date := 738886
    race_date := 738970
    training_days_per_week := 3 }

/-- A well-formed decoded session entry, as the prompt's own worked example
would decode. -/
def sampleSessionData : SessionData :=
  { pass := some "5 km @ 6:30/km"
    fokus := some "Lätt och behagligt"
    distans_km := some (some 5)
    typ := some "Grundträning" }

/-- A well-formed decoded week entry holding `sampleSessionData`. -/
def sampleWeekData : WeekData :=
  { vecka := some 1
    fokus := some "Basbyggnad"
    traningspass := some [sampleSessionData] }

/-- A decoded reply with a `"veckor"` list: the structured-success case. -/
def sampleAIPlan : AIPlanData :=
  { veckor := some [sampleWeekData] }

/-- The `WeekPlan` that `structureWeek` builds from `sampleWeekData` for a
request starting on ordinal 738886. -/
def sampleWeekPlan : WeekPlan :=
  { week_number := 1
    start_date := 738886
    end_date := 738892
    focus := "Basbyggnad"
    total_distance_km := 5
    sessions :=
      [{ date := 738886
         type := "Grundträning"
         description := "5 km @ 6:30/km"
         distance_km := some 5
         duration_minutes := none
         pace := some "6:30"
         intensity := some "low"
         notes := some "Lätt och behagligt" }] }

/-- The `Plan` that `_structure_plan_data` assembles from `sampleAIPlan` for a
request starting on ordinal 738886. -/
def samplePlan : Plan :=
  { weeks := [sampleWeekPlan]
    total_weeks := 1
    total_distance_km := 5 }

/-! ## Helper lemmas -/

theorem pyRound_intCast (z : ℤ) : pyRound ((z : ℚ)) = z := by
  simp [pyRound, Int.fract_intCast, round_intCast]

theorem pyRoundR_ratCast (q : ℚ) : pyRoundR ((q : ℝ)) = pyRound q := by
  unfold pyRoundR pyRound
  rw [← Rat.cast_fract, Rat.floor_cast, Rat.round_cast]
  by_cases h : Int.fract q = 1 / 2
  · rw [if_pos (by rw [h]; norm_num), if_pos h]
  · rw [if_neg (fun heq => h ((Rat.cast_injective (α := ℝ)) (by rw [heq]; norm_num))),
      if_neg h]

theorem foldl_week_append (f : ℕ → WeekPlan) (l : List ℕ) (acc : List WeekPlan) (t : ℤ) :
    l.foldl (fun a w => (a.1 ++ [f w], a.2 + (f w).total_distance_km)) (acc, t) =
      (acc ++ l.map f, t + ((l.map f).map WeekPlan.total_distance_km).sum) := by
  induction l generalizing acc t with
  | nil => simp
  | cons x xs ih => simp [ih, add_assoc]

theorem generatePlanFromStructure_eq (req : TrainingPlanRequest) (ws : List SessionType) :
    generatePlanFromStructure req ws =
      { weeks := (List.range' 1 (calculateTrainingWeeks req.start_date req.race_date).toNat).map
          (fun w => generateWeek req w (calculateTrainingWeeks req.start_date req.race_date).toNat ws)
        total_weeks := (calculateTrainingWeeks req.start_date req.race_date).toNat
        total_distance_km := pyRound
          (((((List.range' 1 (calculateTrainingWeeks req.start_date req.race_date).toNat).map
              (fun w => generateWeek req w (calculateTrainingWeeks req.start_date req.race_date).toNat ws)).map
            WeekPlan.total_distance_km).sum : ℤ) : ℚ) } := by
  have hdef : generatePlanFromStructure req ws =
      (fun r : List WeekPlan × ℤ =>
        ({ weeks := r.1
           total_weeks := (calculateTrainingWeeks req.start_date req.race_date).toNat
           total_distance_km := pyRound ((r.2 : ℚ)) } : Plan))
      ((List.range' 1 (calculateTrainingWeeks req.start_date req.race_date).toNat).foldl
        (fun a w =>
          (a.1 ++ [generateWeek req w (calculateTrainingWeeks req.start_date req.race_date).toNat ws],
            a.2 + (generateWeek req w (calculateTrainingWeeks req.start_date req.race_date).toNat ws).total_distance_km))
        ([], 0)) := rfl
  rw [hdef, foldl_week_append]
  simp

theorem except_bind_ok {ε α β : Type} (a : α) (f : α → Except ε β) :
    ((Except.ok a : Except ε α) >>= f) = f a := rfl

theorem except_bind_error {ε α β : Type} (e : ε) (f : α → Except ε β) :
    ((Except.error e : Except ε α) >>= f) = Except.error e := rfl

theorem structureLoop_ok (req : TrainingPlanRequest) (wds : List WeekData)
    (acc : List WeekPlan) (t : ℤ) (res : List WeekPlan × ℤ)
    (h : wds.foldlM (structureWeekStep req) (acc, t) = .ok res) :
    ∃ new : List WeekPlan,
      res.1 = acc ++ new ∧
      res.2 = t + (new.map WeekPlan.total_distance_km).sum ∧
      ∀ wp ∈ new, ∃ wd ∈ wds, structureWeek req wd = .ok wp := by
  induction wds generalizing acc t with
  | nil =>
    rw [List.foldlM_nil, show (pure (acc, t) : Except GenError (List WeekPlan × ℤ)) =
      Except.ok (acc, t) from rfl] at h
    injection h with h
    exact ⟨[], by simp [← h], by simp [← h], by simp⟩
  | cons wd wds ih =>
    rw [List.foldlM_cons] at h
    cases hw : structureWeek req wd with
    | error e =>
      rw [show structureWeekStep req (acc, t) wd = .error e by
          simp [structureWeekStep, hw],
        except_bind_error] at h
      exact absurd h (by simp)
    | ok wp =>
      rw [show structureWeekStep req (acc, t) wd = .ok (acc ++ [wp], t + wp.total_distance_km) by
          simp [structureWeekStep, hw],
        except_bind_ok] at h
      obtain ⟨new, h1, h2, h3⟩ := ih _ _ h
      refine ⟨wp :: new, by simp [h1], by simp [h2, add_assoc], ?_⟩
      intro wp2 hmem
      rcases List.mem_cons.mp hmem with h | h
      · exact ⟨wd, List.mem_cons_self _ _, h ▸ hw⟩
      · obtain ⟨wd2, hin, hok⟩ := h3 wp2 h
        exact ⟨wd2, List.mem_cons_of_mem _ hin, hok⟩

theorem structureWeek_ok_total (req : TrainingPlanRequest) (wd : WeekData) (wp : WeekPlan)
    (h : structureWeek req wd = .ok wp) :
    wp.total_distance_km = (wp.sessions.map (fun s => s.distance_km.getD 0)).sum := by
  unfold structureWeek at h
  split at h
  · exact Except.noConfusion h
  · split at h
    · exact Except.noConfusion h
    · split at h
      · exact Except.noConfusion h
      · split at h
        · exact Except.noConfusion h
        · split at h
          · exact Except.noConfusion h
          · injection h with h
            rw [← h]

theorem baseStructures_length (lvl : FitnessLevel) (d : ℕ) (st : List SessionType)
    (h : baseStructures lvl d = some st) : st.length = d ∧ 3 ≤ d ∧ d ≤ 7 := by
  cases lvl <;> simp only [baseStructures] at h <;>
    split_ifs at h <;> simp_all <;> rw [← h] <;> rfl

theorem baseStructures_eq_none_iff (lvl : FitnessLevel) (d : ℕ) (h3 : 3 ≤ d) (h7 : d ≤ 7) :
    baseStructures lvl d = none ↔ lvl = .advanced ∧ d = 3 := by
  interval_cases d <;> cases lvl <;> decide

theorem insertionSort_map_add (ws : ℤ) (l : List ℤ) :
    List.insertionSort (· ≤ ·) (l.map (fun x => ws + x)) =
      (List.insertionSort (· ≤ ·) l).map (fun x => ws + x) := by
  apply List.eq_of_perm_of_sorted (r := (· ≤ ·))
  · exact (List.perm_insertionSort _ _).trans (((List.perm_insertionSort _ l).map _).symm)
  · exact List.sorted_insertionSort _ _
  · exact List.Pairwise.map _ (fun a b hab => by omega) (List.sorted_insertionSort (· ≤ ·) l)

theorem getTrainingDays_eq (ws : ℤ) (n : ℕ) :
    getTrainingDays ws n =
      (List.insertionSort (· ≤ ·) ((List.range n).map (fun i => preferredDays.getD (i % 7) 0))).map
        (fun x => ws + x) := by
  unfold getTrainingDays
  rw [show (List.range n).map (fun i => ws + preferredDays.getD (i % 7) 0) =
      ((List.range n).map (fun i => preferredDays.getD (i % 7) 0)).map (fun x => ws + x) by
    simp [List.map_map, Function.comp]]
  exact insertionSort_map_add ws _

theorem getTrainingDays_length (ws : ℤ) (n : ℕ) : (getTrainingDays ws n).length = n := by
  simp [getTrainingDays, List.length_insertionSort]

theorem enum_map_getD {α : Type} (l : List α) (dates : List ℤ) (h : dates.length = l.length) :
    l.enum.map (fun p => dates.getD p.1 0) = dates := by
  apply List.ext_getElem (by simp [h])
  intro i h1 h2
  simp only [List.getElem_map]
  rw [List.getElem_enum]
  exact List.getD_eq_getElem dates 0 h2

theorem weekMultiplier_base_phase (p : ℝ) (h : p ≤ 0.3) :
    weekMultiplier p = 0.7 + p * 1.0 := by
  unfold weekMultiplier
  rw [if_pos h]

theorem weekMultiplier_peak_phase (p : ℝ) (h1 : ¬ p ≤ 0.3) (h2 : p ≤ 0.7) :
    weekMultiplier p = 1.0 + 0.3 * Real.sin ((p - 0.3) * Real.pi / 0.4) := by
  unfold weekMultiplier
  rw [if_neg h1, if_pos h2]

theorem weekMultiplier_specific_phase (p : ℝ) (h1 : ¬ p ≤ 0.7) (h2 : p ≤ 0.9) :
    weekMultiplier p = 1.0 := by
  unfold weekMultiplier
  rw [if_neg (fun hc => h1 (by linarith)), if_neg h1, if_pos h2]

theorem weekMultiplier_taper_phase (p : ℝ) (h : ¬ p ≤ 0.9) :
    weekMultiplier p = 0.6 := by
  unfold weekMultiplier
  rw [if_neg (fun hc => h (by linarith)), if_neg (fun hc => h (by linarith)), if_neg h]

theorem calculateWeekDistance_base_phase (w n : ℕ) (b : ℚ)
    (h : ((w : ℝ)) / ((n : ℝ)) ≤ 0.3) :
    calculateWeekDistance w n b = pyRound (b * (0.7 + (w : ℚ) / (n : ℚ) * 1.0)) := by
  unfold calculateWeekDistance
  rw [weekMultiplier_base_phase _ h,
    show (b : ℝ) * (0.7 + (w : ℝ) / (n : ℝ) * 1.0) =
      ((b * (0.7 + (w : ℚ) / (n : ℚ) * 1.0) : ℚ) : ℝ) by push_cast; ring]
  exact pyRoundR_ratCast _

theorem calculateWeekDistance_taper_phase (w n : ℕ) (b : ℚ)
    (h : ¬ ((w : ℝ) / ((n : ℝ)) ≤ 0.9)) :
    calculateWeekDistance w n b = pyRound (b * 0.6) := by
  unfold calculateWeekDistance
  rw [weekMultiplier_taper_phase _ h,
    show (b : ℝ) * 0.6 = ((b * 0.6 : ℚ) : ℝ) by push_cast; ring]
  exact pyRoundR_ratCast _

theorem generateWeek_week_number (req : TrainingPlanRequest) (w n : ℕ)
    (ws : List SessionType) : (generateWeek req w n ws).week_number = (w : ℤ) := rfl

theorem generateWeek_start (req : TrainingPlanRequest) (w n : ℕ) (ws : List SessionType) :
    (generateWeek req w n ws).start_date = req.start_date + 7 * ((w : ℤ) - 1) := rfl

theorem generateWeek_end (req : TrainingPlanRequest) (w n : ℕ) (ws : List SessionType) :
    (generateWeek req w n ws).end_date = req.start_date + 7 * ((w : ℤ) - 1) + 6 := rfl

theorem generateWeek_total (req : TrainingPlanRequest) (w n : ℕ) (ws : List SessionType) :
    (generateWeek req w n ws).total_distance_km =
      calculateWeekDistance w n
        (calculateBaseDistance req.fitness_level req.target_hours req.target_minutes) := rfl

theorem generateWeek_sessions_length (req : TrainingPlanRequest) (w n : ℕ)
    (ws : List SessionType) : (generateWeek req w n ws).sessions.length = ws.length := by
  show (ws.enum.map _).length = ws.length
  simp

theorem generateWeek_types (req : TrainingPlanRequest) (w n : ℕ) (ws : List SessionType) :
    (generateWeek req w n ws).sessions.map TrainingSession.type = ws.map sessionName := by
  show (ws.enum.map _).map TrainingSession.type = ws.map sessionName
  rw [List.map_map,
    show (TrainingSession.type ∘ fun p : ℕ × SessionType =>
        createTrainingSession
          ((getTrainingDays (req.start_date + 7 * ((w : ℤ) - 1)) ws.length).getD p.1 0) p.2
          (calculateWeekDistance w n
            (calculateBaseDistance req.fitness_level req.target_hours req.target_minutes))) =
      (sessionName ∘ Prod.snd) from rfl,
    ← List.map_map, List.enum_map_snd]

theorem generateWeek_dates (req : TrainingPlanRequest) (w n : ℕ) (ws : List SessionType) :
    (generateWeek req w n ws).sessions.map TrainingSession.date =
      getTrainingDays (req.start_date + 7 * ((w : ℤ) - 1)) ws.length := by
  show (ws.enum.map _).map TrainingSession.date = _
  rw [List.map_map,
    show (TrainingSession.date ∘ fun p : ℕ × SessionType =>
        createTrainingSession
          ((getTrainingDays (req.start_date + 7 * ((w : ℤ) - 1)) ws.length).getD p.1 0) p.2
          (calculateWeekDistance w n
            (calculateBaseDistance req.fitness_level req.target_hours req.target_minutes))) =
      (fun p : ℕ × SessionType =>
        (getTrainingDays (req.start_date + 7 * ((w : ℤ) - 1)) ws.length).getD p.1 0) from rfl]
  exact enum_map_getD ws _ (getTrainingDays_length _ _)

theorem generateWeek_distances (req : TrainingPlanRequest) (w n : ℕ) (ws : List SessionType) :
    (generateWeek req w n ws).sessions.map (fun s => s.distance_km.getD 0) =
      ws.map (fun t =>
        calculateSessionDistance t
          (calculateWeekDistance w n
            (calculateBaseDistance req.fitness_level req.target_hours req.target_minutes))) := by
  show (ws.enum.map _).map _ = _
  rw [List.map_map,
    show ((fun s : TrainingSession => s.distance_km.getD 0) ∘ fun p : ℕ × SessionType =>
        createTrainingSession
          ((getTrainingDays (req.start_date + 7 * ((w : ℤ) - 1)) ws.length).getD p.1 0) p.2
          (calculateWeekDistance w n
            (calculateBaseDistance req.fitness_level req.target_hours req.target_minutes))) =
      ((fun t => calculateSessionDistance t
          (calculateWeekDistance w n
            (calculateBaseDistance req.fitness_level req.target_hours req.target_minutes))) ∘
        Prod.snd) from rfl,
    ← List.map_map, List.enum_map_snd]

theorem calculateTrainingWeeks_example : calculateTrainingWeeks 738886 738970 = 12 := by
  decide

theorem calculateWeekDistance_12_12_45 : calculateWeekDistance 12 12 (45 : ℚ) = 27 := by
  rw [calculateWeekDistance_taper_phase 12 12 45 (by norm_num)]
  norm_num [pyRound, Int.fract, round_eq]

theorem structurePlanData_sample (req : TrainingPlanRequest) (h : req.start_date = 738886) :
    structurePlanData sampleAIPlan req = .ok samplePlan := by
  obtain ⟨g, hc, wk, a, fl, rc, th, tm, ts, sd, rd, td⟩ := req
  dsimp only at h
  subst h
  have h5 : (5 : ℤ) = pyRound ((5 : ℤ) : ℚ) := (pyRound_intCast 5).symm
  show _ = .ok samplePlan
  unfold samplePlan
  rw [h5]
  rfl

theorem generatePlan_isOk_of_supported (req : TrainingPlanRequest)
    (h : baseStructures req.fitness_level req.training_days_per_week ≠ none) :
    (generatePlan req).isOk = true := by
  unfold generatePlan
  cases hb : baseStructures req.fitness_level req.training_days_per_week with
  | none => exact absurd hb h
  | some ws => rfl

theorem generatePlan_error_cases (req : TrainingPlanRequest) (e : GenError)
    (h : generatePlan req = .error e) :
    baseStructures req.fitness_level req.training_days_per_week = none ∧
      e = .unsupportedConfiguration := by
  unfold generatePlan at h
  cases hb : baseStructures req.fitness_level req.training_days_per_week with
  | none => rw [hb] at h; injection h with h; exact ⟨rfl, h.symm⟩
  | some ws => rw [hb] at h; exact Except.noConfusion h

theorem generatePlan_ok_cases (req : TrainingPlanRequest) (p : Plan)
    (h : generatePlan req = .ok p) :
    ∃ ws, baseStructures req.fitness_level req.training_days_per_week = some ws ∧
      p = generatePlanFromStructure req ws := by
  unfold generatePlan at h
  cases hb : baseStructures req.fitness_level req.training_days_per_week with
  | none => rw [hb] at h; exact Except.noConfusion h
  | some ws => rw [hb] at h; injection h with h; exact ⟨ws, rfl, h.symm⟩

theorem orchestrate_eq_cases (req : TrainingPlanRequest) (ro : RetrievalOutcome)
    (c : ChatOutcome) :
    (∃ d p, generateAITrainingPlan c = .ok d ∧ structurePlanData d req = .ok p ∧
        orchestrateGeneratePlan req ro c = .ok p) ∨
      orchestrateGeneratePlan req ro c = generatePlan req := by
  unfold orchestrateGeneratePlan attemptAIPlan
  cases hg : generateAITrainingPlan c with
  | error e => exact .inr rfl
  | ok d =>
    dsimp only
    cases hs : structurePlanData d req with
    | error e => exact .inr rfl
    | ok p => exact .inl ⟨d, p, rfl, hs, rfl⟩

theorem attemptAIPlan_error_fallback (req : TrainingPlanRequest) (ro : RetrievalOutcome)
    (c : ChatOutcome) (h : (attemptAIPlan req c).isOk = false) :
    orchestrateGeneratePlan req ro c = generatePlan req := by
  unfold orchestrateGeneratePlan
  cases ha : attemptAIPlan req c with
  | error e => rfl
  | ok p => rw [ha] at h; exact Bool.noConfusion h

theorem structurePlanData_ok_cases (ai_plan : AIPlanData) (req : TrainingPlanRequest)
    (p : Plan) (h : structurePlanData ai_plan req = .ok p) :
    generatePlan req = .ok p ∨
      ∃ weeks total, structureLoopRun req ai_plan = .ok (weeks, total) ∧ weeks ≠ [] ∧
        p = { weeks := weeks, total_weeks := weeks.length,
              total_distance_km := pyRound ((total : ℚ)) } := by
  unfold structurePlanData at h
  cases hl : structureLoopRun req ai_plan with
  | error e => rw [hl] at h; exact Except.noConfusion h
  | ok pair =>
    obtain ⟨weeks, total⟩ := pair
    rw [hl] at h
    dsimp only at h
    by_cases he : weeks.isEmpty
    · rw [if_pos he] at h
      exact .inl h
    · rw [if_neg he] at h
      injection h with h
      exact .inr ⟨weeks, total, rfl, by simpa using he, h.symm⟩

theorem structurePlanData_no_veckor (req : TrainingPlanRequest) :
    structurePlanData { veckor := none } req = generatePlan req := rfl

theorem fdiv7_eq_floor (a : ℤ) : a.fdiv 7 = ⌊(a : ℚ) / 7⌋ := by
  rw [Int.fdiv_eq_ediv _ (by norm_num),
    show ((a : ℚ)) / 7 = ((a : ℚ)) / ((7 : ℕ) : ℚ) by norm_num,
    Rat.floor_intCast_div_natCast a 7]
  norm_num

/-! ## Claim theorems -/

/-- C5: the computed training week count equals
`clamp(floor((race_date - start_date).days / 7), 4, 20)` (the clamp formula is
`specWeekCount`, written from the spec), it always lies in `[4, 20]`, and so
does the week count of every deterministically generated plan. -/
theorem c5_week_count_clamped :
    (∀ s r : ℤ, calculateTrainingWeeks s r = specWeekCount s r) ∧
    (∀ s r : ℤ, 4 ≤ calculateTrainingWeeks s r ∧ calculateTrainingWeeks s r ≤ 20) ∧
    (∀ (req : TrainingPlanRequest) (ws : List SessionType),
      4 ≤ (generatePlanFromStructure req ws).total_weeks ∧
        (generatePlanFromStructure req ws).total_weeks ≤ 20) := by
  have h2 : ∀ s r : ℤ, 4 ≤ calculateTrainingWeeks s r ∧ calculateTrainingWeeks s r ≤ 20 := by
    intro s r
    unfold calculateTrainingWeeks
    omega
  refine ⟨?_, h2, ?_⟩
  · intro s r
    unfold calculateTrainingWeeks specWeekCount
    rw [fdiv7_eq_floor]
    norm_cast
  · intro req ws
    have hw : (generatePlanFromStructure req ws).total_weeks =
        (calculateTrainingWeeks req.start_date req.race_date).toNat := rfl
    have := h2 req.start_date req.race_date
    omega

/-- C7: the weekly volume multiplier as a function of
`progress = week / total_weeks` follows the four branches of
`_calculate_week_distance` and is continuous at `progress = 0.3` and
`progress = 0.7`, with value `1.0` on both sides of each boundary. -/
theorem c7_multiplier_piecewise :
    (∀ p : ℝ, p ≤ 0.3 → weekMultiplier p = 0.7 + p) ∧
    (∀ p : ℝ, 0.3 < p → p ≤ 0.7 →
      weekMultiplier p = 1.0 + 0.3 * Real.sin ((p - 0.3) * Real.pi / 0.4)) ∧
    (∀ p : ℝ, 0.7 < p → p ≤ 0.9 → weekMultiplier p = 1.0) ∧
    (∀ p : ℝ, 0.9 < p → weekMultiplier p = 0.6) ∧
    weekMultiplier 0.3 = 1.0 ∧ weekMultiplier 0.7 = 1.0 ∧
    ContinuousAt weekMultiplier 0.3 ∧ ContinuousAt weekMultiplier 0.7 := by
  have h04 : ((0.7 : ℝ) - 0.3) * Real.pi / 0.4 = Real.pi := by
    rw [show (0.7 : ℝ) - 0.3 = 0.4 by norm_num, mul_comm, mul_div_assoc]
    norm_num
  refine ⟨?_, ?_, ?_, ?_, ?_, ?_, ?_, ?_⟩
  · intro p h
    rw [weekMultiplier_base_phase p h]
    ring
  · intro p h1 h2
    exact weekMultiplier_peak_phase p (not_le.mpr h1) h2
  · intro p h1 h2
    exact weekMultiplier_specific_phase p (not_le.mpr h1) h2
  · intro p h
    exact weekMultiplier_taper_phase p (not_le.mpr h)
  · rw [weekMultiplier_base_phase 0.3 le_rfl]
    norm_num
  · rw [weekMultiplier_peak_phase 0.7 (by norm_num) le_rfl, h04, Real.sin_pi]
    norm_num
  · have hg : Continuous (fun p : ℝ => if p ≤ (0.3 : ℝ) then 0.7 + p * 1.0
        else 1.0 + 0.3 * Real.sin ((p - 0.3) * Real.pi / 0.4)) := by
      apply Continuous.if_le
      · continuity
      · continuity
      · exact continuous_id
      · exact continuous_const
      · intro x hx
        rw [hx, show ((0.3 : ℝ) - 0.3) * Real.pi / 0.4 = 0 by norm_num, Real.sin_zero]
        norm_num
    apply hg.continuousAt.congr
    apply Filter.eventuallyEq_of_mem (Iio_mem_nhds (show (0.3 : ℝ) < 0.7 by norm_num))
    intro p hp
    simp only [Set.mem_Iio] at hp
    by_cases h : p ≤ (0.3 : ℝ)
    · show (if p ≤ (0.3 : ℝ) then 0.7 + p * 1.0
          else 1.0 + 0.3 * Real.sin ((p - 0.3) * Real.pi / 0.4)) = weekMultiplier p
      rw [weekMultiplier_base_phase p h, if_pos h]
    · show (if p ≤ (0.3 : ℝ) then 0.7 + p * 1.0
          else 1.0 + 0.3 * Real.sin ((p - 0.3) * Real.pi / 0.4)) = weekMultiplier p
      rw [weekMultiplier_peak_phase p h (le_of_lt hp), if_neg h]
  · have hg : Continuous (fun p : ℝ => if p ≤ (0.7 : ℝ) then
        1.0 + 0.3 * Real.sin ((p - 0.3) * Real.pi / 0.4) else 1.0) := by
      apply Continuous.if_le
      · continuity
      · exact continuous_const
      · exact continuous_id
      · exact continuous_const
      · intro x hx
        rw [hx, h04, Real.sin_pi]
        norm_num
    apply hg.continuousAt.congr
    apply Filter.eventuallyEq_of_mem
      (Ioo_mem_nhds (show (0.3 : ℝ) < 0.7 by norm_num) (show (0.7 : ℝ) < 0.9 by norm_num))
    intro p hp
    obtain ⟨hp1, hp2⟩ := hp
    by_cases h : p ≤ (0.7 : ℝ)
    · show (if p ≤ (0.7 : ℝ) then 1.0 + 0.3 * Real.sin ((p - 0.3) * Real.pi / 0.4)
          else 1.0) = weekMultiplier p
      rw [weekMultiplier_peak_phase p (not_le.mpr hp1) h, if_pos h]
    · show (if p ≤ (0.7 : ℝ) then 1.0 + 0.3 * Real.sin ((p - 0.3) * Real.pi / 0.4)
          else 1.0) = weekMultiplier p
      rw [weekMultiplier_specific_phase p h (le_of_lt hp2), if_neg h]

/-- Witness for C7: the theorem applied at concrete progress values 0.2
(base branch) and 1 (taper branch). -/
theorem c7_multiplier_piecewise_witness :
    weekMultiplier 0.2 = 0.7 + 0.2 ∧ weekMultiplier 1 = 0.6 :=
  ⟨c7_multiplier_piecewise.1 0.2 (by norm_num),
    c7_multiplier_piecewise.2.2.2.1 1 (by norm_num)⟩

/-- C8: pace extraction tries the `@H:MM/km` pattern first, then the
`H:MM-H:MM/km` range pattern (joined with a dash), and yields no pace when
neither matches; the spec's concrete description extracts `6:45-7:00`;
intensity is a fixed lookup defaulting to `"medium"`. -/
theorem c8_pace_extraction :
    (∀ s g, searchPace s.toList = some g → extractPace s = some g) ∧
    (∀ s g, searchPace s.toList = none → searchPaceRange s.toList = some g →
      extractPace s = some (g.1 ++ "-" ++ g.2)) ∧
    (∀ s, searchPace s.toList = none → searchPaceRange s.toList = none →
      extractPace s = none) ∧
    extractPace "4 x 3 min uppför @ 6:45-7:00/km, joggvila" = some "6:45-7:00" ∧
    (["Grundträning", "Längdpass", "Tempoträning", "Intervall", "Backträning",
        "Återhämtning"].map determineIntensity =
      ["low", "low-medium", "medium", "high", "medium-high", "very_low"]) ∧
    (∀ t, t ≠ "Grundträning" → t ≠ "Längdpass" → t ≠ "Tempoträning" → t ≠ "Intervall" →
      t ≠ "Backträning" → t ≠ "Återhämtning" → determineIntensity t = "medium") := by
  refine ⟨?_, ?_, ?_, by decide, by decide, ?_⟩
  · intro s g h
    unfold extractPace
    rw [h]
  · intro s g h1 h2
    unfold extractPace
    rw [h1, h2]
  · intro s h1 h2
    unfold extractPace
    rw [h1, h2]
  · intro t h1 h2 h3 h4 h5 h6
    unfold determineIntensity
    rw [if_neg h1, if_neg h2, if_neg h3, if_neg h4, if_neg h5, if_neg h6]

/-- Witness for C8: the no-match clause applied to the concrete description
`"joggvila"`, and the first-pattern clause applied to `"5 km @ 6:30/km"`. -/
theorem c8_pace_extraction_witness :
    extractPace "joggvila" = none ∧ extractPace "5 km @ 6:30/km" = some "6:30" :=
  ⟨c8_pace_extraction.2.2.1 "joggvila" rfl rfl,
    c8_pace_extraction.1 "5 km @ 6:30/km" "6:30" rfl⟩

/-- C10: the helper pairs duplicated between the two generator classes are
extensionally equal, and the week count interpolated into the AI prompt equals
the week count of the plan the deterministic fallback would produce. -/
theorem c10_duplicated_helpers_agree :
    (∀ s r : ℤ, calculateTrainingWeeks s r = aiCalculateTrainingWeeks s r) ∧
    (∀ (ws : ℤ) (n : ℕ), getTrainingDays ws n = aiGetTrainingDays ws n) ∧
    (∀ (req : TrainingPlanRequest) (p : Plan), generatePlan req = .ok p →
      (p.total_weeks : ℤ) = promptTrainingWeeks req) := by
  refine ⟨fun s r => rfl, fun ws n => rfl, ?_⟩
  intro req p h
  obtain ⟨ws, hb, hp⟩ := generatePlan_ok_cases req p h
  subst hp
  show (((calculateTrainingWeeks req.start_date req.race_date).toNat : ℤ)) = _
  rw [Int.toNat_of_nonneg (by unfold calculateTrainingWeeks; omega)]
  rfl

/-- Witness for C10: the prompt/fallback agreement applied to the concrete
example request. -/
theorem c10_duplicated_helpers_agree_witness :
    (((generatePlanFromStructure exampleRequest
        [.easy_run, .tempo_run, .interval_training, .long_run]).total_weeks : ℕ) : ℤ) =
      promptTrainingWeeks exampleRequest :=
  c10_duplicated_helpers_agree.2.2 exampleRequest _ rfl

/-- C2: for every plan returned by the deterministic generator, by the AI
structuring step, or by the orchestrator, the stored week count equals the
length of the week sequence and the stored total distance equals the rounded
sum of the week distances. -/
theorem c2_plan_invariants :
    (∀ (req : TrainingPlanRequest) (ws : List SessionType),
      (generatePlanFromStructure req ws).total_weeks =
          (generatePlanFromStructure req ws).weeks.length ∧
        (generatePlanFromStructure req ws).total_distance_km =
          pyRound ((((generatePlanFromStructure req ws).weeks.map
            WeekPlan.total_distance_km).sum : ℤ) : ℚ)) ∧
    (∀ (d : AIPlanData) (req : TrainingPlanRequest) (p : Plan),
      structurePlanData d req = .ok p →
      p.total_weeks = p.weeks.length ∧
        p.total_distance_km =
          pyRound (((p.weeks.map WeekPlan.total_distance_km).sum : ℤ) : ℚ)) ∧
    (∀ (req : TrainingPlanRequest) (ro : RetrievalOutcome) (c : ChatOutcome) (p : Plan),
      orchestrateGeneratePlan req ro c = .ok p →
      p.total_weeks = p.weeks.length ∧
        p.total_distance_km =
          pyRound (((p.weeks.map WeekPlan.total_distance_km).sum : ℤ) : ℚ)) := by
  have hdet : ∀ (req : TrainingPlanRequest) (ws : List SessionType),
      (generatePlanFromStructure req ws).total_weeks =
          (generatePlanFromStructure req ws).weeks.length ∧
        (generatePlanFromStructure req ws).total_distance_km =
          pyRound ((((generatePlanFromStructure req ws).weeks.map
            WeekPlan.total_distance_km).sum : ℤ) : ℚ) := by
    intro req ws
    constructor
    · rw [generatePlanFromStructure_eq]
      simp
    · rw [generatePlanFromStructure_eq]
  have hai : ∀ (d : AIPlanData) (req : TrainingPlanRequest) (p : Plan),
      structurePlanData d req = .ok p →
      p.total_weeks = p.weeks.length ∧
        p.total_distance_km =
          pyRound (((p.weeks.map WeekPlan.total_distance_km).sum : ℤ) : ℚ) := by
    intro d req p h
    rcases structurePlanData_ok_cases d req p h with hfb | ⟨weeks, total, hl, hne, hp⟩
    · obtain ⟨ws, hb, hp⟩ := generatePlan_ok_cases req p hfb
      subst hp
      exact hdet req ws
    · subst hp
      refine ⟨rfl, ?_⟩
      have htot : total = (weeks.map WeekPlan.total_distance_km).sum := by
        unfold structureLoopRun at hl
        cases hv : d.veckor with
        | none =>
          rw [hv] at hl
          injection hl with hl
          have h1 := congrArg Prod.fst hl
          have h2 := congrArg Prod.snd hl
          simp only at h1 h2
          rw [← h1, ← h2]
          rfl
        | some wds =>
          rw [hv] at hl
          obtain ⟨new, hn1, hn2, hn3⟩ := structureLoop_ok req wds [] 0 (weeks, total) hl
          simp only [List.nil_append, zero_add] at hn1 hn2
          rw [hn2, hn1]
      rw [htot]
  refine ⟨hdet, hai, ?_⟩
  intro req ro c p h
  rcases orchestrate_eq_cases req ro c with ⟨d, p2, hg, hs, heq⟩ | heq
  · rw [heq] at h
    injection h with h
    subst h
    exact hai d req p2 hs
  · rw [heq] at h
    obtain ⟨ws, hb, hp⟩ := generatePlan_ok_cases req p h
    subst hp
    exact hdet req ws

/-- Witness for C2: the invariant of the AI structuring step applied to the
concrete sample reply and example request. -/
theorem c2_plan_invariants_witness :
    samplePlan.total_weeks = samplePlan.weeks.length ∧
      samplePlan.total_distance_km =
        pyRound (((samplePlan.weeks.map WeekPlan.total_distance_km).sum : ℤ) : ℚ) :=
  c2_plan_invariants.2.1 sampleAIPlan exampleRequest samplePlan
    (structurePlanData_sample exampleRequest rfl)

theorem sessionDistance_easy_27 : calculateSessionDistance SessionType.easy_run 27 = 4 := by
  show pyRound (max 4 (min 15 (((27 : ℤ) : ℚ) * sessionDistribution SessionType.easy_run))) = 4
  rw [show (((27 : ℤ) : ℚ) * sessionDistribution SessionType.easy_run) = 81 / 20 by
      unfold sessionDistribution; norm_num,
    show (min 15 (81 / 20 : ℚ)) = 81 / 20 by norm_num [min_def],
    show (max 4 (81 / 20 : ℚ)) = 81 / 20 by norm_num [max_def]]
  norm_num [pyRound, Int.fract, round_eq]

theorem sessionDistance_tempo_27 : calculateSessionDistance SessionType.tempo_run 27 = 5 := by
  show pyRound (max 4 (min 15 (((27 : ℤ) : ℚ) * sessionDistribution SessionType.tempo_run))) = 5
  rw [show (((27 : ℤ) : ℚ) * sessionDistribution SessionType.tempo_run) = 27 / 5 by
      unfold sessionDistribution; norm_num,
    show (min 15 (27 / 5 : ℚ)) = 27 / 5 by norm_num [min_def],
    show (max 4 (27 / 5 : ℚ)) = 27 / 5 by norm_num [max_def]]
  norm_num [pyRound, Int.fract, round_eq]

theorem sessionDistance_interval_27 :
    calculateSessionDistance SessionType.interval_training 27 = 4 := by
  show pyRound
      (max 4 (min 15 (((27 : ℤ) : ℚ) * sessionDistribution SessionType.interval_training))) = 4
  rw [show (((27 : ℤ) : ℚ) * sessionDistribution SessionType.interval_training) = 81 / 20 by
      unfold sessionDistribution; norm_num,
    show (min 15 (81 / 20 : ℚ)) = 81 / 20 by norm_num [min_def],
    show (max 4 (81 / 20 : ℚ)) = 81 / 20 by norm_num [max_def]]
  norm_num [pyRound, Int.fract, round_eq]

theorem sessionDistance_long_27 : calculateSessionDistance SessionType.long_run 27 = 9 := by
  show pyRound (max 8 (min 25 (((27 : ℤ) : ℚ) * sessionDistribution SessionType.long_run))) = 9
  rw [show (((27 : ℤ) : ℚ) * sessionDistribution SessionType.long_run) = 189 / 20 by
      unfold sessionDistribution; norm_num,
    show (min 25 (189 / 20 : ℚ)) = 189 / 20 by norm_num [min_def],
    show (max 8 (189 / 20 : ℚ)) = 189 / 20 by norm_num [max_def]]
  norm_num [pyRound, Int.fract, round_eq]

theorem sessionDistances_at_27 :
    ([SessionType.easy_run, SessionType.tempo_run, SessionType.interval_training,
        SessionType.long_run].map (fun t => calculateSessionDistance t 27)) =
      [4, 5, 4, 9] := by
  simp [sessionDistance_easy_27, sessionDistance_tempo_27, sessionDistance_interval_27,
    sessionDistance_long_27]

/-- Counterexample for C3: in the deterministic plan for the example request
(12 weeks, intermediate, 4 days, target 03:00:00), week 12 stores a total of
27 km while its four sessions sum to 4 + 5 + 4 + 9 = 22 km. -/
theorem c3_counterexample :
    ¬ (∀ (p : Plan), generatePlan exampleRequest = Except.ok p →
        ∀ wp ∈ p.weeks,
          wp.total_distance_km =
            (wp.sessions.map (fun s => s.distance_km.getD 0)).sum) := by
  intro hclaim
  have hok : generatePlan exampleRequest =
      .ok (generatePlanFromStructure exampleRequest
        [.easy_run, .tempo_run, .interval_training, .long_run]) := rfl
  have h := hclaim _ hok
  have hn : (calculateTrainingWeeks exampleRequest.start_date
      exampleRequest.race_date).toNat = 12 := by
    show (calculateTrainingWeeks 738886 738970).toNat = 12
    rw [calculateTrainingWeeks_example]
    rfl
  have hmem : generateWeek exampleRequest 12 12
      [.easy_run, .tempo_run, .interval_training, .long_run] ∈
      (generatePlanFromStructure exampleRequest
        [.easy_run, .tempo_run, .interval_training, .long_run]).weeks := by
    rw [generatePlanFromStructure_eq]
    simp only [hn]
    exact List.mem_map.mpr ⟨12, by decide, rfl⟩
  have h12 := h _ hmem
  rw [generateWeek_total, generateWeek_distances,
    show calculateBaseDistance exampleRequest.fitness_level exampleRequest.target_hours
      exampleRequest.target_minutes = 45 from rfl,
    calculateWeekDistance_12_12_45, sessionDistances_at_27] at h12
  exact absurd h12 (by decide)

/-- C3 amended: a WeekPlan built by the AI structuring step from a decoded
week entry has `total_distance_km` equal to the sum of its session distances;
a deterministic WeekPlan instead carries the periodized weekly volume
`calculateWeekDistance`, which need not equal the sum of its session
distances. -/
theorem c3_amended_week_totals :
    (∀ (req : TrainingPlanRequest) (wd : WeekData) (wp : WeekPlan),
      structureWeek req wd = .ok wp →
      wp.total_distance_km = (wp.sessions.map (fun s => s.distance_km.getD 0)).sum) ∧
    (∀ (req : TrainingPlanRequest) (ws : List SessionType) (i : ℕ) (wp : WeekPlan),
      (generatePlanFromStructure req ws).weeks[i]? = some wp →
      wp.total_distance_km =
        calculateWeekDistance (1 + i)
          (calculateTrainingWeeks req.start_date req.race_date).toNat
          (calculateBaseDistance req.fitness_level req.target_hours
            req.target_minutes)) := by
  constructor
  · exact fun req wd wp h => structureWeek_ok_total req wd wp h
  · intro req ws i wp h
    rw [generatePlanFromStructure_eq] at h
    simp only [List.getElem?_map] at h
    have hin : i < (calculateTrainingWeeks req.start_date req.race_date).toNat := by
      by_contra hc
      have hlen : (List.range' 1
          (calculateTrainingWeeks req.start_date req.race_date).toNat).length ≤ i := by
        simp only [List.length_range']
        omega
      rw [List.getElem?_eq_none hlen] at h
      exact Option.noConfusion h
    rw [List.getElem?_range' 1 1 hin] at h
    simp only [one_mul, Option.map_some'] at h
    injection h with h
    rw [← h, generateWeek_total]

/-- Witness for C3 (amended): the AI-side equality applied to the concrete
sample week entry. -/
theorem c3_amended_week_totals_witness :
    sampleWeekPlan.total_distance_km =
      (sampleWeekPlan.sessions.map (fun s => s.distance_km.getD 0)).sum :=
  c3_amended_week_totals.1 exampleRequest sampleWeekData sampleWeekPlan rfl

/-- C6: every deterministic week has exactly `training_days_per_week` sessions;
and for the concrete example (2024-01-01 to 2024-03-25, intermediate, 4 days)
the plan has 12 weeks, every week uses the session types easy/tempo/interval/
long in that order, week 1 carries the base-building multiplier
`0.7 + 1/12` and week 12 the taper multiplier `0.6`. -/
theorem c6_deterministic_example :
    (∀ (req : TrainingPlanRequest) (ws : List SessionType),
      baseStructures req.fitness_level req.training_days_per_week = some ws →
      ∀ wp ∈ (generatePlanFromStructure req ws).weeks,
        wp.sessions.length = req.training_days_per_week) ∧
    (∀ (req : TrainingPlanRequest), req.fitness_level = .intermediate →
      req.training_days_per_week = 4 → req.start_date = 738886 → req.race_date = 738970 →
      baseStructures req.fitness_level req.training_days_per_week =
        some [.easy_run, .tempo_run, .interval_training, .long_run] ∧
      (generatePlanFromStructure req
        [.easy_run, .tempo_run, .interval_training, .long_run]).total_weeks = 12 ∧
      ((generatePlanFromStructure req
          [.easy_run, .tempo_run, .interval_training, .long_run]).weeks.map
        (fun wp => wp.sessions.map TrainingSession.type)) =
        List.replicate 12 ["Lugnt löppass", "Tempopass", "Intervallträning", "Långpass"] ∧
      (∀ wp, (generatePlanFromStructure req
          [.easy_run, .tempo_run, .interval_training, .long_run]).weeks[0]? = some wp →
        wp.total_distance_km =
          pyRound ((calculateBaseDistance req.fitness_level req.target_hours
            req.target_minutes) * (0.7 + (1 : ℚ) / 12 * 1.0))) ∧
      (∀ wp, (generatePlanFromStructure req
          [.easy_run, .tempo_run, .interval_training, .long_run]).weeks[11]? = some wp →
        wp.total_distance_km =
          pyRound ((calculateBaseDistance req.fitness_level req.target_hours
            req.target_minutes) * 0.6)) ∧
      weekMultiplier ((1 : ℝ) / 12) = 0.7 + (1 : ℝ) / 12 * 1.0 ∧
      weekMultiplier ((12 : ℝ) / 12) = 0.6) := by
  constructor
  · intro req ws hb wp hmem
    rw [generatePlanFromStructure_eq] at hmem
    obtain ⟨w, hw, hwp⟩ := List.mem_map.mp hmem
    rw [← hwp, generateWeek_sessions_length]
    exact (baseStructures_length _ _ _ hb).1
  · intro req h1 h2 h3 h4
    have hn : (calculateTrainingWeeks req.start_date req.race_date).toNat = 12 := by
      rw [h3, h4, calculateTrainingWeeks_example]
      rfl
    refine ⟨by rw [h1, h2]; rfl, hn, ?_, ?_, ?_, ?_, ?_⟩
    · rw [generatePlanFromStructure_eq]
      simp only [hn]
      rw [List.eq_replicate_iff]
      refine ⟨by simp, ?_⟩
      intro b hb
      obtain ⟨wp, hwp, hbe⟩ := List.mem_map.mp hb
      obtain ⟨w, hw, hgen⟩ := List.mem_map.mp hwp
      rw [← hbe, ← hgen, generateWeek_types]
      rfl
    · intro wp h
      rw [generatePlanFromStructure_eq] at h
      simp only [hn, List.getElem?_map,
        List.getElem?_range' 1 1 (show 0 < 12 by norm_num), one_mul,
        Option.map_some'] at h
      injection h with h
      rw [← h, generateWeek_total,
        calculateWeekDistance_base_phase 1 12 _ (by norm_num)]
      norm_num
    · intro wp h
      rw [generatePlanFromStructure_eq] at h
      simp only [hn, List.getElem?_map,
        List.getElem?_range' 1 1 (show 11 < 12 by norm_num), one_mul,
        Option.map_some'] at h
      injection h with h
      rw [← h, generateWeek_total,
        calculateWeekDistance_taper_phase 12 12 _ (by norm_num)]
    · rw [weekMultiplier_base_phase _ (by norm_num)]
    · rw [weekMultiplier_taper_phase _ (by norm_num)]

/-- Witness for C6: the concrete clauses of the theorem applied to the example
request. -/
theorem c6_deterministic_example_witness :
    (generatePlanFromStructure exampleRequest
        [.easy_run, .tempo_run, .interval_training, .long_run]).total_weeks = 12 ∧
      ((generatePlanFromStructure exampleRequest
          [.easy_run, .tempo_run, .interval_training, .long_run]).weeks.map
        (fun wp => wp.sessions.map TrainingSession.type)) =
        List.replicate 12 ["Lugnt löppass", "Tempopass", "Intervallträning", "Långpass"] ∧
      weekMultiplier ((1 : ℝ) / 12) = 0.7 + (1 : ℝ) / 12 * 1.0 ∧
      weekMultiplier ((12 : ℝ) / 12) = 0.6 :=
  ⟨(c6_deterministic_example.2 exampleRequest rfl rfl rfl rfl).2.1,
    (c6_deterministic_example.2 exampleRequest rfl rfl rfl rfl).2.2.1,
    (c6_deterministic_example.2 exampleRequest rfl rfl rfl rfl).2.2.2.2.2.1,
    (c6_deterministic_example.2 exampleRequest rfl rfl rfl rfl).2.2.2.2.2.2⟩

theorem plan_weeks_getElem (req : TrainingPlanRequest) (ws : List SessionType)
    (i : ℕ) (wp : WeekPlan)
    (h : (generatePlanFromStructure req ws).weeks[i]? = some wp) :
    i < (calculateTrainingWeeks req.start_date req.race_date).toNat ∧
      wp = generateWeek req (1 + i)
        (calculateTrainingWeeks req.start_date req.race_date).toNat ws := by
  rw [generatePlanFromStructure_eq] at h
  simp only [List.getElem?_map] at h
  have hin : i < (calculateTrainingWeeks req.start_date req.race_date).toNat := by
    by_contra hc
    have hlen : (List.range' 1
        (calculateTrainingWeeks req.start_date req.race_date).toNat).length ≤ i := by
      simp only [List.length_range']
      omega
    rw [List.getElem?_eq_none hlen] at h
    exact Option.noConfusion h
  rw [List.getElem?_range' 1 1 hin] at h
  simp only [one_mul, Option.map_some'] at h
  injection h with h
  exact ⟨hin, h.symm⟩

theorem preferredDays_getD_bounds (j : ℕ) :
    0 ≤ preferredDays.getD (j % 7) 0 ∧ preferredDays.getD (j % 7) 0 ≤ 6 := by
  have hji : j % 7 < 7 := Nat.mod_lt _ (by norm_num)
  have hlen : j % 7 < preferredDays.length := by simpa [preferredDays] using hji
  rw [List.getD_eq_getElem _ _ hlen]
  have hall : ∀ y ∈ preferredDays, 0 ≤ y ∧ y ≤ 6 := by decide
  exact hall _ (List.getElem_mem hlen)

/-- C9: in every deterministic plan, week `i` (0-based) spans exactly
`[start_date + 7 i, start_date + 7 i + 6]`, consecutive weeks are contiguous,
every session of the week is dated inside the span, and the session dates are
strictly increasing (hence pairwise distinct). -/
theorem c9_week_layout :
    ∀ (req : TrainingPlanRequest) (ws : List SessionType),
      baseStructures req.fitness_level req.training_days_per_week = some ws →
      ∀ (i : ℕ) (wp : WeekPlan),
        (generatePlanFromStructure req ws).weeks[i]? = some wp →
        wp.week_number = (i : ℤ) + 1 ∧
        wp.start_date = req.start_date + 7 * (i : ℤ) ∧
        wp.end_date = wp.start_date + 6 ∧
        (∀ wp2, (generatePlanFromStructure req ws).weeks[i + 1]? = some wp2 →
          wp2.start_date = wp.end_date + 1) ∧
        List.Pairwise (· < ·) (wp.sessions.map TrainingSession.date) ∧
        (∀ t ∈ wp.sessions, wp.start_date ≤ t.date ∧ t.date ≤ wp.start_date + 6) := by
  intro req ws hb i wp h
  obtain ⟨hin, hwp⟩ := plan_weeks_getElem req ws i wp h
  subst hwp
  obtain ⟨hlen, hd3, hd7⟩ := baseStructures_length _ _ _ hb
  refine ⟨?_, ?_, ?_, ?_, ?_, ?_⟩
  · rw [generateWeek_week_number]
    push_cast
    ring
  · rw [generateWeek_start]
    push_cast
    ring
  · rw [generateWeek_end, generateWeek_start]
  · intro wp2 h2
    obtain ⟨hin2, hwp2⟩ := plan_weeks_getElem req ws (i + 1) wp2 h2
    subst hwp2
    rw [generateWeek_start, generateWeek_end]
    push_cast
    ring
  · rw [generateWeek_dates]
    have hcase : ws.length = 3 ∨ ws.length = 4 ∨ ws.length = 5 ∨ ws.length = 6 ∨
        ws.length = 7 := by omega
    rcases hcase with hc | hc | hc | hc | hc
    · rw [hc, getTrainingDays_eq,
        show List.insertionSort (· ≤ ·)
            ((List.range 3).map (fun j => preferredDays.getD (j % 7) 0)) =
          ([0, 2, 4] : List ℤ) from by decide]
      simp [List.pairwise_cons]
    · rw [hc, getTrainingDays_eq,
        show List.insertionSort (· ≤ ·)
            ((List.range 4).map (fun j => preferredDays.getD (j % 7) 0)) =
          ([0, 2, 4, 5] : List ℤ) from by decide]
      simp [List.pairwise_cons]
    · rw [hc, getTrainingDays_eq,
        show List.insertionSort (· ≤ ·)
            ((List.range 5).map (fun j => preferredDays.getD (j % 7) 0)) =
          ([0, 1, 2, 4, 5] : List ℤ) from by decide]
      simp [List.pairwise_cons]
    · rw [hc, getTrainingDays_eq,
        show List.insertionSort (· ≤ ·)
            ((List.range 6).map (fun j => preferredDays.getD (j % 7) 0)) =
          ([0, 1, 2, 3, 4, 5] : List ℤ) from by decide]
      simp [List.pairwise_cons]
    · rw [hc, getTrainingDays_eq,
        show List.insertionSort (· ≤ ·)
            ((List.range 7).map (fun j => preferredDays.getD (j % 7) 0)) =
          ([0, 1, 2, 3, 4, 5, 6] : List ℤ) from by decide]
      simp [List.pairwise_cons]
  · intro t ht
    have hmem : t.date ∈ (generateWeek req (1 + i)
        (calculateTrainingWeeks req.start_date req.race_date).toNat ws).sessions.map
        TrainingSession.date := List.mem_map_of_mem _ ht
    rw [generateWeek_dates, getTrainingDays_eq] at hmem
    obtain ⟨x, hx, hxe⟩ := List.mem_map.mp hmem
    have hx2 : x ∈ (List.range ws.length).map (fun j => preferredDays.getD (j % 7) 0) :=
      (List.perm_insertionSort (· ≤ ·) _).mem_iff.mp hx
    obtain ⟨j, hj, hje⟩ := List.mem_map.mp hx2
    have hxb : 0 ≤ x ∧ x ≤ 6 := hje ▸ preferredDays_getD_bounds j
    rw [generateWeek_start, ← hxe]
    omega

/-- Witness for C9: the layout of week 0 of the deterministic example plan. -/
theorem c9_week_layout_witness :
    (generateWeek exampleRequest 1 12
        [.easy_run, .tempo_run, .interval_training, .long_run]).start_date =
      exampleRequest.start_date + 7 * ((0 : ℕ) : ℤ) ∧
    List.Pairwise (· < ·)
      ((generateWeek exampleRequest 1 12
        [.easy_run, .tempo_run, .interval_training, .long_run]).sessions.map
        TrainingSession.date) :=
  ⟨(c9_week_layout exampleRequest
      [.easy_run, .tempo_run, .interval_training, .long_run] rfl 0
      (generateWeek exampleRequest 1 12
        [.easy_run, .tempo_run, .interval_training, .long_run]) rfl).2.1,
   (c9_week_layout exampleRequest
      [.easy_run, .tempo_run, .interval_training, .long_run] rfl 0
      (generateWeek exampleRequest 1 12
        [.easy_run, .tempo_run, .interval_training, .long_run]) rfl).2.2.2.2.1⟩

/-- Counterexample for C4: a generation reply without any bracketed block does
not raise — `_generate_ai_training_plan` returns the reply wrapped as
`{"ai_response": content}` (a dict without `"veckor"`). -/
theorem c4_counterexample :
    hasJsonBlock "Tyvärr kan jag inte skapa en träningsplan just nu." = false ∧
    generateAITrainingPlan
        (.success "Tyvärr kan jag inte skapa en träningsplan just nu." none) =
      .ok { veckor := none } := by
  exact ⟨by decide, rfl⟩

/-- C4 amended: malformed content in a present bracketed block raises, as do a
raising or unsuccessful service call; but a reply with no bracketed block does
not raise — it yields the unstructured wrapper, and the mapping step then
silently substitutes the deterministic generator's plan for it. -/
theorem c4_synthesizer_failures :
    (∀ reply parsed, hasJsonBlock reply = true → parsed = none →
      generateAITrainingPlan (.success reply parsed) = .error .jsonDecodeError) ∧
    generateAITrainingPlan .raises = .error .serviceError ∧
    (∀ e, generateAITrainingPlan (.failure e) = .error (.agentFailed e)) ∧
    (∀ reply parsed, hasJsonBlock reply = false →
      generateAITrainingPlan (.success reply parsed) = .ok { veckor := none }) ∧
    (∀ req, structurePlanData { veckor := none } req = generatePlan req) := by
  refine ⟨?_, rfl, fun e => rfl, ?_, fun req => rfl⟩
  · intro reply parsed h1 h2
    subst h2
    unfold generateAITrainingPlan
    dsimp only
    rw [if_pos h1]
  · intro reply parsed h
    unfold generateAITrainingPlan
    dsimp only
    rw [if_neg (by simp [h])]

/-- Witness for C4 (amended): the malformed-block clause applied to a concrete
reply that contains a bracketed block whose content fails to decode. -/
theorem c4_synthesizer_failures_witness :
    generateAITrainingPlan (.success "\x7btrasig\x7d" none) = .error .jsonDecodeError :=
  c4_synthesizer_failures.1 "\x7btrasig\x7d" none (by decide) rfl

/-- Counterexample for C1: the valid (advanced, 3 days) request has no entry
in the weekly-structure table, yet when the generation service returns a
well-formed structured plan the orchestrator returns that plan instead of
raising — so "raises if and only if the pair is absent" fails in the
"if" direction. -/
theorem c1_counterexample :
    baseStructures advanced3Request.fitness_level
        advanced3Request.training_days_per_week = none ∧
    ValidRequest advanced3Request ∧
    orchestrateGeneratePlan advanced3Request RetrievalOutcome.raises
        (ChatOutcome.success "\x7bveckor\x7d" (some sampleAIPlan)) = .ok samplePlan := by
  refine ⟨rfl, by decide, ?_⟩
  have hai : generateAITrainingPlan
      (ChatOutcome.success "\x7bveckor\x7d" (some sampleAIPlan)) = .ok sampleAIPlan := rfl
  unfold orchestrateGeneratePlan attemptAIPlan
  rw [hai]
  dsimp only
  rw [structurePlanData_sample advanced3Request rfl]

/-- C1 amended: for every valid request whose (fitness level, days/week) pair
is present in the table the orchestrator returns a plan regardless of what the
retrieval and generation services do; whenever it raises, the pair is absent
— among valid requests exactly (advanced, 3) — and the exception is the
unsupported-configuration error; and whenever the AI attempt fails the
orchestrator returns exactly the deterministic generator's result, so in that
case it raises if and only if the pair is absent. -/
theorem c1_orchestrator_fallback :
    ∀ (req : TrainingPlanRequest), ValidRequest req →
      ∀ (ro : RetrievalOutcome) (c : ChatOutcome),
        (baseStructures req.fitness_level req.training_days_per_week ≠ none →
          (orchestrateGeneratePlan req ro c).isOk = true) ∧
        (∀ e, orchestrateGeneratePlan req ro c = .error e →
          req.fitness_level = .advanced ∧ req.training_days_per_week = 3 ∧
            e = .unsupportedConfiguration) ∧
        ((attemptAIPlan req c).isOk = false →
          orchestrateGeneratePlan req ro c = generatePlan req) ∧
        (baseStructures req.fitness_level req.training_days_per_week = none ↔
          req.fitness_level = .advanced ∧ req.training_days_per_week = 3) := by
  intro req hvalid ro c
  obtain ⟨-, -, -, -, -, -, -, -, -, -, hd3, hd7⟩ := hvalid
  have hiff := baseStructures_eq_none_iff req.fitness_level
    req.training_days_per_week hd3 hd7
  refine ⟨?_, ?_, attemptAIPlan_error_fallback req ro c, hiff⟩
  · intro hne
    rcases orchestrate_eq_cases req ro c with ⟨d, p, hg, hs, heq⟩ | heq
    · rw [heq]
      rfl
    · rw [heq]
      exact generatePlan_isOk_of_supported req hne
  · intro e he
    rcases orchestrate_eq_cases req ro c with ⟨d, p, hg, hs, heq⟩ | heq
    · rw [heq] at he
      exact Except.noConfusion he
    · rw [heq] at he
      obtain ⟨hnone, herr⟩ := generatePlan_error_cases req e he
      obtain ⟨hf, hd⟩ := hiff.mp hnone
      exact ⟨hf, hd, herr⟩

/-- Witness for C1 (amended): the supported example request never raises even
when both the retrieval and the generation call raise. -/
theorem c1_orchestrator_fallback_witness :
    (orchestrateGeneratePlan exampleRequest RetrievalOutcome.raises
        ChatOutcome.raises).isOk = true :=
  (c1_orchestrator_fallback exampleRequest (by decide) RetrievalOutcome.raises
    ChatOutcome.raises).1 (by decide)

end RaceBuddy
